import Mathlib

/-!
Verification of the z3 strategies tutorial notebook
(`z3-solver-examples/z3-strategies.ipynb`).

The notebook builds arithmetic and bit-vector goals, applies z3 tactics and
tactic combinators to them, and records the solver's printed answers in its
output cells.  We embed

* the arithmetic formulas the notebook's cells construct (`RExpr`, `RForm`),
  with their evaluation semantics over any linear ordered ring, and the
  `num-consts` probe (number of distinct constants occurring in a goal);
* 16-bit bit-vector arithmetic with two's-complement signed comparison, as
  used by the `BitVecs('x y', 16)` examples;
* the tactic combinators the notebook describes (`FailIf`, `Then`, `OrElse`,
  `If`), modelled from the notebook's own description of them and from its
  recorded behaviour, since the z3 library itself is not part of the
  repository;
* the notebook's code cells as data: which library operations each cell
  invokes, the kinds of statements it contains, and the output text it
  records.

The theorems check the recorded outputs against this semantics: recorded
models really satisfy the constraints they were reported for, probe values
are what the outputs say, branch selection follows the probe, and the
rewritten goals printed by `simplify`/`factor`/`solve-eqs` are equivalent
(or equisatisfiable) with their inputs.
-/

namespace ZStrat

/-- Arithmetic expressions occurring in the notebook's `Reals`/`Ints` goals.
Variables are numbered in the order the cell declares them
(`x, y, z = Reals('x y z')` gives `x = var 0`, `y = var 1`, `z = var 2`). -/
inductive RExpr where
  | var (i : Nat)
  | num (n : Int)
  | add (a b : RExpr)
  | sub (a b : RExpr)
  | mul (a b : RExpr)
  | pow (a : RExpr) (k : Nat)
  deriving DecidableEq

/-- Atomic formulas and negations, as they appear in the notebook's goals and
in the goals z3 prints back (e.g. `Not(x <= 0)`). -/
inductive RForm where
  | gt (a b : RExpr)
  | lt (a b : RExpr)
  | ge (a b : RExpr)
  | le (a b : RExpr)
  | eq (a b : RExpr)
  | not (f : RForm)
  deriving DecidableEq

/-- The constants (free variables) occurring in an expression, with
multiplicity. -/
def RExpr.vars : RExpr → List Nat
  | .var i => [i]
  | .num _ => []
  | .add a b => a.vars ++ b.vars
  | .sub a b => a.vars ++ b.vars
  | .mul a b => a.vars ++ b.vars
  | .pow a _ => a.vars

/-- The constants occurring in a formula. -/
def RForm.vars : RForm → List Nat
  | .gt a b => a.vars ++ b.vars
  | .lt a b => a.vars ++ b.vars
  | .ge a b => a.vars ++ b.vars
  | .le a b => a.vars ++ b.vars
  | .eq a b => a.vars ++ b.vars
  | .not f => f.vars

/-- A goal is the list of formulas added to a `Goal()` object. -/
abbrev RGoal := List RForm

/-- The distinct constants of a goal. -/
def goalVars (g : RGoal) : List Nat :=
  (g.foldr (fun f acc => f.vars ++ acc) []).dedup

/-- The probe `num-consts`: the number of distinct constants in a goal
(the notebook prints `num-consts: 3.0` for the goal `x + y + z > 0`). -/
def numConsts (g : RGoal) : Nat := (goalVars g).length

/-- Value of an expression under an assignment, in any linear ordered ring
(the notebook uses both `Reals` and `Ints`). -/
def RExpr.eval {α : Type} [LinearOrderedRing α] (ρ : Nat → α) : RExpr → α
  | .var i => ρ i
  | .num n => (n : α)
  | .add a b => a.eval ρ + b.eval ρ
  | .sub a b => a.eval ρ - b.eval ρ
  | .mul a b => a.eval ρ * b.eval ρ
  | .pow a k => a.eval ρ ^ k

/-- Truth of a formula under an assignment. -/
def RForm.holds {α : Type} [LinearOrderedRing α] (ρ : Nat → α) : RForm → Prop
  | .gt a b => b.eval ρ < a.eval ρ
  | .lt a b => a.eval ρ < b.eval ρ
  | .ge a b => b.eval ρ ≤ a.eval ρ
  | .le a b => a.eval ρ ≤ b.eval ρ
  | .eq a b => a.eval ρ = b.eval ρ
  | .not f => ¬ f.holds ρ

instance RForm.decHolds {α : Type} [LinearOrderedRing α] [DecidableEq α] (ρ : Nat → α) :
    (f : RForm) → Decidable (f.holds ρ)
  | .gt a b => inferInstanceAs (Decidable (RExpr.eval ρ b < RExpr.eval ρ a))
  | .lt a b => inferInstanceAs (Decidable (RExpr.eval ρ a < RExpr.eval ρ b))
  | .ge a b => inferInstanceAs (Decidable (RExpr.eval ρ b ≤ RExpr.eval ρ a))
  | .le a b => inferInstanceAs (Decidable (RExpr.eval ρ a ≤ RExpr.eval ρ b))
  | .eq a b => inferInstanceAs (Decidable (RExpr.eval ρ a = RExpr.eval ρ b))
  | .not f => @instDecidableNot _ (RForm.decHolds ρ f)

/-- An assignment satisfies a goal when it satisfies every formula in it. -/
def goalHolds {α : Type} [LinearOrderedRing α] (ρ : Nat → α) (g : RGoal) : Prop :=
  ∀ f ∈ g, f.holds ρ

instance {α : Type} [LinearOrderedRing α] [DecidableEq α] (ρ : Nat → α) (g : RGoal) :
    Decidable (goalHolds ρ g) :=
  List.decidableBAll _ g

namespace Z3

/-- Modelled from the spec: a z3 tactic (the z3 library is external to this
repository).  Applied to a goal it either fails, raising `Z3Exception`
(represented by `Except.error ()`), or produces a list of subgoals. -/
abbrev RTactic := RGoal → Except Unit (List RGoal)

/-- Modelled from the spec: the combinator `FailIf(cond)` of the external
library.  Per the spec's error-handling section ("a solver-specific exception
raised when a tactic's precondition (a probe-based condition) fails") and the
notebook's recorded behaviour (on a goal with probe value 3 the tactic
`FailIf(p > 2)` raises `Z3Exception`; on a goal with probe value 2 it returns
the goal unchanged), `FailIf cond` raises the exception on exactly the goals
satisfying `cond` and otherwise returns its input goal as the single
subgoal. -/
def FailIf (cond : RGoal → Bool) : RTactic := fun g =>
  if cond g then Except.error () else Except.ok [g]

/-- Modelled from the spec: the tactic `skip` "just returns the input
goal". -/
def skip : RTactic := fun g => Except.ok [g]

/-- Apply a tactic to every subgoal in a list and concatenate the results,
failing if it fails anywhere. -/
def onEach (s : RTactic) : List RGoal → Except Unit (List RGoal)
  | [] => Except.ok []
  | g :: gs => do
    let r ← s g
    let rs ← onEach s gs
    Except.ok (r ++ rs)

/-- Modelled from the spec: `Then(t, s)` "applies `t` to the input goal and
`s` to every subgoal produced by `t`". -/
def Then (t s : RTactic) : RTactic := fun g => do
  let gs ← t g
  onEach s gs

/-- Modelled from the spec: `OrElse(t, s)` "first applies `t` to the given
goal, if it fails then returns the result of `s` applied to the given
goal". -/
def OrElse (t s : RTactic) : RTactic := fun g =>
  match t g with
  | Except.ok r => Except.ok r
  | Except.error _ => s g

/-- Modelled from the spec: `If(p, t1, t2)` is the notebook's shorthand
`OrElse(Then(FailIf(Not(p)), t1), t2)`. -/
def If (p : RGoal → Bool) (t1 t2 : RTactic) : RTactic :=
  OrElse (Then (FailIf (fun g => !(p g))) t1) t2

/-- When the probe condition holds of the goal and the first tactic succeeds
on it, `If` returns the first tactic's result. -/
theorem If_pos {p : RGoal → Bool} {t1 t2 : RTactic} {g : RGoal} {r : List RGoal}
    (hp : p g = true) (h : t1 g = Except.ok r) :
    If p t1 t2 g = Except.ok r := by
  simp [If, OrElse, Then, FailIf, onEach, hp, h, Bind.bind, Except.bind]

/-- When the probe condition does not hold of the goal, `If` runs the second
tactic. -/
theorem If_neg {p : RGoal → Bool} {t1 t2 : RTactic} {g : RGoal}
    (hp : p g = false) :
    If p t1 t2 g = t2 g := by
  simp [If, OrElse, Then, FailIf, onEach, hp, Bind.bind, Except.bind]

end Z3

/-- The probe condition `Probe('num-consts') > 2` used by cells 11 and 12. -/
def probeGt2 (g : RGoal) : Bool := decide (2 < numConsts g)

/-! ## 16-bit bit-vectors

The notebook's bit-vector examples declare `BitVecs('x y', 16)`.  We
represent a 16-bit value as a natural number below `2 ^ 16`; arithmetic wraps
modulo `2 ^ 16` and comparisons are signed (two's complement), matching z3's
`<` and `>` on bit-vectors. -/

/-- Number of values of a 16-bit vector. -/
def bvSize : Nat := 2 ^ 16

/-- Two's-complement reading of a 16-bit value. -/
def toSigned (n : Nat) : Int :=
  if n < 2 ^ 15 then (n : Int) else (n : Int) - (bvSize : Int)

/-- The 16-bit value denoted by an integer literal (e.g. `-100`). -/
def intToBv (i : Int) : Nat := (i % (bvSize : Int)).toNat

/-- 16-bit addition. -/
def bvAdd (a b : Nat) : Nat := (a + b) % bvSize

/-- 16-bit multiplication. -/
def bvMul (a b : Nat) : Nat := (a * b) % bvSize

/-- Bitwise or. -/
def bvOr (a b : Nat) : Nat := Nat.lor a b

/-- Bitwise and. -/
def bvAnd (a b : Nat) : Nat := Nat.land a b

/-- Signed less-than on 16-bit values. -/
abbrev bvSlt (a b : Nat) : Prop := toSigned a < toSigned b

/-- Signed greater-than on 16-bit values. -/
abbrev bvSgt (a b : Nat) : Prop := toSigned b < toSigned a

/-! ## The notebook's code cells as data

The notebook interleaves markdown cells with executable code cells.  For each
code cell we record which operations of the external library it invokes, the
kinds of top-level statements it consists of, and the text lines of its
recorded output stream. -/

/-- Operations of the external z3 library invoked (or described) by the
notebook. -/
inductive ZOp where
  | Reals
  | Ints
  | BitVecs
  | Goal
  | Tactic
  | Then
  | OrElse
  | Repeat
  | TryFor
  | With
  | FailIf
  | If
  | When
  | Probe
  | solverMethod
  | Solver
  | solveUsing
  | convertModel
  deriving DecidableEq

/-- Kind of a top-level Python statement of a code cell.  The first six kinds
are the only ones occurring in the notebook; the last five are kinds a cell
could have contained but does not. -/
inductive StmtKind where
  | importAll
  | bindName
  | exprCall
  | printCall
  | tryExcept
  | forLoopPrint
  | defFun
  | defClass
  | fileWrite
  | networkOpen
  | cliInterface
  deriving DecidableEq

/-- A code cell of the notebook: its execution count, the kinds of its
top-level statements in order, the tracked library operations it invokes,
and the lines of its recorded standard-output stream. -/
structure CodeCell where
  execCount : Nat
  stmts : List StmtKind
  ops : List ZOp
  outputs : List String
  deriving DecidableEq

/-- Cell 1: `from z3 import *`. -/
def cell1 : CodeCell :=
  { execCount := 1
    stmts := [.importAll]
    ops := []
    outputs := [] }

/-- Cell 2: build the goal `x > 0, y > 0, x == y + 2` over the reals and
apply `Then(Tactic('simplify'), Tactic('solve-eqs'))` to it. -/
def cell2 : CodeCell :=
  { execCount := 2
    stmts := [.bindName, .bindName, .exprCall, .printCall, .bindName,
              .bindName, .bindName, .printCall]
    ops := [.Reals, .Goal, .Tactic, .Then]
    outputs := ["[x > 0, y > 0, x == y + 2]",
                "[[Not(x <= 0), Not(x <= 2)]]"] }

/-- Cell 3: `Tactic('split-clause')` on `Or(x < 0, x > 0), x == y + 1,
y < 0`. -/
def cell3 : CodeCell :=
  { execCount := 3
    stmts := [.bindName, .bindName, .exprCall, .bindName, .bindName,
              .forLoopPrint]
    ops := [.Reals, .Goal, .Tactic]
    outputs := ["[x < 0, x == y + 1, y < 0]",
                "[x > 0, x == y + 1, y < 0]"] }

/-- Cell 4: `Repeat`/`OrElse` combinations of `split-clause` and `skip`. -/
def cell4 : CodeCell :=
  { execCount := 4
    stmts := [.bindName, .bindName, .exprCall, .bindName, .printCall,
              .bindName, .printCall, .bindName, .printCall]
    ops := [.Reals, .Goal, .Repeat, .OrElse, .Tactic, .Then]
    outputs := ["[[x == 0, y == 0, z == 0, x + y + z > 2],",
                " [x == 0, y == 0, z == 1, x + y + z > 2],",
                " [x == 0, y == 1, z == 0, x + y + z > 2],",
                " [x == 0, y == 1, z == 1, x + y + z > 2],",
                " [x == 1, y == 0, z == 0, x + y + z > 2],",
                " [x == 1, y == 0, z == 1, x + y + z > 2],",
                " [x == 1, y == 1, z == 0, x + y + z > 2],",
                " [x == 1, y == 1, z == 1, x + y + z > 2]]",
                "[[x == 0, y == 0, Or(z == 0, z == 1), x + y + z > 2],",
                " [x == 0, y == 1, Or(z == 0, z == 1), x + y + z > 2],",
                " [x == 1, y == 0, Or(z == 0, z == 1), x + y + z > 2],",
                " [x == 1, y == 1, Or(z == 0, z == 1), x + y + z > 2]]",
                "[[]]"] }

/-- Cell 5: traversal of the subgoals of `split_all` with a `for` loop. -/
def cell5 : CodeCell :=
  { execCount := 5
    stmts := [.bindName, .bindName, .exprCall, .bindName, .forLoopPrint]
    ops := [.Reals, .Goal, .Repeat, .OrElse, .Tactic]
    outputs := ["[x == 0, y == 0, z == 0, x + y + z > 2]",
                "[x == 0, y == 0, z == 1, x + y + z > 2]",
                "[x == 0, y == 1, z == 0, x + y + z > 2]",
                "[x == 0, y == 1, z == 1, x + y + z > 2]",
                "[x == 1, y == 0, z == 0, x + y + z > 2]",
                "[x == 1, y == 0, z == 1, x + y + z > 2]",
                "[x == 1, y == 1, z == 0, x + y + z > 2]",
                "[x == 1, y == 1, z == 1, x + y + z > 2]"] }

/-- Cell 6: the basic bit-vector solver
`Then('simplify', 'solve-eqs', 'bit-blast', 'sat').solver()` applied with
`solve_using` to `x | y == 13, x > y` over 16-bit vectors. -/
def cell6 : CodeCell :=
  { execCount := 6
    stmts := [.bindName, .bindName, .exprCall]
    ops := [.Then, .solverMethod, .BitVecs, .solveUsing]
    outputs := ["[y = 0, x = 13]"] }

/-- Cell 7: the configured bit-vector solver with `With('simplify',
mul2concat=True)` and the `aig` tactic, on `x * 32 + y == 13, x & y < 10,
y > -100`. -/
def cell7 : CodeCell :=
  { execCount := 7
    stmts := [.bindName, .bindName, .exprCall, .printCall, .bindName,
              .printCall, .printCall, .printCall]
    ops := [.Then, .With, .solverMethod, .BitVecs]
    outputs := ["sat",
                "[y = 2061, x = 1984]",
                "x*32 + y == 13",
                "x & y == 0"] }

/-- Cell 8: the `smt` tactic as a solver on `x > y + 1` over the
integers. -/
def cell8 : CodeCell :=
  { execCount := 8
    stmts := [.bindName, .bindName, .exprCall, .printCall, .printCall]
    ops := [.Ints, .Tactic, .solverMethod]
    outputs := ["sat",
                "[x = 0, y = -2]"] }

/-- Cell 9: integer arithmetic via SAT, `Then(With('simplify',
arith_lhs=True, som=True), 'normalize-bounds', 'lia2pb', 'pb2bv',
'bit-blast', 'sat').solver()`, on a bounded and then an unbounded
instance. -/
def cell9 : CodeCell :=
  { execCount := 9
    stmts := [.bindName, .bindName, .exprCall, .exprCall, .exprCall]
    ops := [.Then, .With, .solverMethod, .Ints, .solveUsing]
    outputs := ["[x = 3, z = 9, y = 1]",
                "failed to solve"] }

/-- Cell 10: `Then('simplify', 'normalize-bounds', 'solve-eqs')` on
`x > 10, y == x + 3, z > y`, solving the single subgoal with `Solver()` and
converting its model back with `convert_model`. -/
def cell10 : CodeCell :=
  { execCount := 10
    stmts := [.bindName, .bindName, .bindName, .exprCall, .bindName,
              .printCall, .bindName, .exprCall, .printCall, .printCall,
              .printCall]
    ops := [.Then, .Ints, .Goal, .Solver, .convertModel]
    outputs := ["[[Not(y <= 13), Not(z <= y)]]",
                "sat",
                "[y = 14, z = 15]",
                "[z = 15, y = 14, x = 11]"] }

/-- Cell 11: `Probe('num-consts')` evaluated on a goal, and
`FailIf(p > 2)` raising `Z3Exception` on a three-constant goal and
succeeding on a two-constant goal. -/
def cell11 : CodeCell :=
  { execCount := 11
    stmts := [.bindName, .bindName, .exprCall, .bindName, .printCall,
              .bindName, .tryExcept, .printCall, .bindName, .exprCall,
              .printCall]
    ops := [.Reals, .Goal, .Probe, .FailIf]
    outputs := ["num-consts: 3.0",
                "tactic failed",
                "trying again...",
                "[[x + y > 0]]"] }

/-- Cell 12: `If(p > 2, 'simplify', 'factor')` on a two-constant and then a
three-constant goal. -/
def cell12 : CodeCell :=
  { execCount := 12
    stmts := [.bindName, .bindName, .exprCall, .bindName, .bindName,
              .printCall, .bindName, .exprCall, .printCall]
    ops := [.Reals, .Goal, .Probe, .If]
    outputs := ["[[(y + -1*x)*(y + x) <= 0]]",
                "[[2*x + y + z >= 0, x**2 + -1*y**2 >= 0]]"] }

/-- Cell 13: the trailing empty cell. -/
def cell13 : CodeCell :=
  { execCount := 12
    stmts := []
    ops := []
    outputs := [] }

/-- All executable code cells of the notebook, in order. -/
def codeCells : List CodeCell :=
  [cell1, cell2, cell3, cell4, cell5, cell6, cell7, cell8, cell9, cell10,
   cell11, cell12, cell13]

/-- Operations described in the notebook's markdown cells: the combinator
list (`Then`, `OrElse`, `Repeat`, `TryFor`, `With`), the `solver()` method,
and the probe section (`Probe`, `FailIf`, `If`, `When`), plus `Tactic` and
`Goal` introduced at the start. -/
def markdownOps : List ZOp :=
  [.Tactic, .Goal, .Then, .OrElse, .Repeat, .TryFor, .With, .solverMethod,
   .Probe, .FailIf, .If, .When]

/-! ## The goals the claims are about, transcribed from the cells -/

/-- Cell 2's goal `x > 0, y > 0, x == y + 2` (reals). -/
def cell2Goal : RGoal :=
  [.gt (.var 0) (.num 0),
   .gt (.var 1) (.num 0),
   .eq (.var 0) (.add (.var 1) (.num 2))]

/-- Cell 2's recorded resulting subgoal `[Not(x <= 0), Not(x <= 2)]`. -/
def cell2Out : RGoal :=
  [.not (.le (.var 0) (.num 0)),
   .not (.le (.var 0) (.num 2))]

/-- Cell 9's bounded constraints `x > 0, x < 10, y > 0, y < 10, z > 0,
z < 10, 3 * y + 2 * x == z` (integers). -/
def cell9Goal : RGoal :=
  [.gt (.var 0) (.num 0), .lt (.var 0) (.num 10),
   .gt (.var 1) (.num 0), .lt (.var 1) (.num 10),
   .gt (.var 2) (.num 0), .lt (.var 2) (.num 10),
   .eq (.add (.mul (.num 3) (.var 1)) (.mul (.num 2) (.var 0))) (.var 2)]

/-- Cell 9's recorded model `x = 3, z = 9, y = 1`. -/
def cell9Model : Nat → Int := fun i =>
  if i = 0 then 3 else if i = 1 then 1 else if i = 2 then 9 else 0

/-- Cell 10's original goal `x > 10, y == x + 3, z > y` (integers). -/
def cell10Goal : RGoal :=
  [.gt (.var 0) (.num 10),
   .eq (.var 1) (.add (.var 0) (.num 3)),
   .gt (.var 2) (.var 1)]

/-- Cell 10's recorded single subgoal `[Not(y <= 13), Not(z <= y)]`. -/
def cell10Subgoal : RGoal :=
  [.not (.le (.var 1) (.num 13)),
   .not (.le (.var 2) (.var 1))]

/-- Cell 10's recorded subgoal model `y = 14, z = 15`. -/
def cell10SubModel : Nat → Int := fun i =>
  if i = 1 then 14 else if i = 2 then 15 else 0

/-- Cell 10's recorded converted model `z = 15, y = 14, x = 11`. -/
def cell10ConvModel : Nat → Int := fun i =>
  if i = 0 then 11 else if i = 1 then 14 else if i = 2 then 15 else 0

/-- Cell 11's first goal `x + y + z > 0` (three constants). -/
def cell11Goal1 : RGoal :=
  [.gt (.add (.add (.var 0) (.var 1)) (.var 2)) (.num 0)]

/-- Cell 11's second goal `x + y > 0` (two constants). -/
def cell11Goal2 : RGoal :=
  [.gt (.add (.var 0) (.var 1)) (.num 0)]

/-- Cell 12's first goal `x ** 2 - y ** 2 >= 0` (two constants). -/
def cell12Goal1 : RGoal :=
  [.ge (.sub (.pow (.var 0) 2) (.pow (.var 1) 2)) (.num 0)]

/-- Cell 12's second goal `x + x + y + z >= 0, x ** 2 - y ** 2 >= 0`
(three constants). -/
def cell12Goal2 : RGoal :=
  [.ge (.add (.add (.add (.var 0) (.var 0)) (.var 1)) (.var 2)) (.num 0),
   .ge (.sub (.pow (.var 0) 2) (.pow (.var 1) 2)) (.num 0)]

/-- Cell 12's recorded first output goal `(y + -1*x)*(y + x) <= 0` (the
`factor` branch). -/
def cell12Out1 : RGoal :=
  [.le (.mul (.add (.var 1) (.mul (.num (-1)) (.var 0)))
             (.add (.var 1) (.var 0)))
       (.num 0)]

/-- Cell 12's recorded second output goal `2*x + y + z >= 0,
x**2 + -1*y**2 >= 0` (the `simplify` branch). -/
def cell12Out2 : RGoal :=
  [.ge (.add (.add (.mul (.num 2) (.var 0)) (.var 1)) (.var 2)) (.num 0),
   .ge (.add (.pow (.var 0) 2) (.mul (.num (-1)) (.pow (.var 1) 2))) (.num 0)]

/-- Cell 6's constraints `x | y == 13, x > y` on 16-bit vectors. -/
abbrev cell6Constraints (x y : Nat) : Prop :=
  bvOr x y = 13 ∧ bvSgt x y

/-- Cell 7's constraints `x * 32 + y == 13, x & y < 10, y > -100` on 16-bit
vectors. -/
abbrev cell7Constraints (x y : Nat) : Prop :=
  bvAdd (bvMul x 32) y = intToBv 13 ∧
  bvSlt (bvAnd x y) (intToBv 10) ∧
  bvSgt y (intToBv (-100))

/-- The ten operations named by the claim about invoked operations. -/
def claimedOps : List ZOp :=
  [.Then, .OrElse, .Repeat, .TryFor, .With, .FailIf, .If, .When, .Probe,
   .solverMethod]

/-! ## Theorems for the claims -/

/-- C1: the tactic `FailIf(Probe('num-consts') > 2)` raises `Z3Exception`
exactly on the goals whose probe-based failure condition holds; cell 11's
goal `x + y + z > 0` has probe value 3 (as the cell prints), the tactic
raises the exception there, and the cell's recorded output contains the
caught-and-printed message `tactic failed`. -/
theorem C1_failif_raises_iff_probe :
    (∀ g : RGoal, Z3.FailIf probeGt2 g = Except.error () ↔ 2 < numConsts g)
    ∧ numConsts cell11Goal1 = 3
    ∧ Z3.FailIf probeGt2 cell11Goal1 = Except.error ()
    ∧ "num-consts: 3.0" ∈ cell11.outputs
    ∧ "tactic failed" ∈ cell11.outputs := by
  refine ⟨fun g => ?_, by decide, rfl, by decide, by decide⟩
  by_cases h : 2 < numConsts g
  · simp [Z3.FailIf, probeGt2, h]
  · simp [Z3.FailIf, probeGt2, h]

/-- C2: cell 6 records the answer `[y = 0, x = 13]`, and that assignment
satisfies both constraints under exact 16-bit semantics: `13 | 0 == 13` and
`13 > 0` as a signed comparison. -/
theorem C2_bv_solver_model :
    "[y = 0, x = 13]" ∈ cell6.outputs ∧ cell6Constraints 13 0 := by decide

/-- C3: cell 10 records the single subgoal `[Not(y <= 13), Not(z <= y)]`,
its model `[y = 14, z = 15]`, and the converted model
`[z = 15, y = 14, x = 11]`; the subgoal model satisfies the subgoal and the
converted model satisfies every constraint of the original goal
(`11 > 10`, `14 == 11 + 3`, `15 > 14`). -/
theorem C3_convert_model_satisfies_goal :
    "[[Not(y <= 13), Not(z <= y)]]" ∈ cell10.outputs
    ∧ "[y = 14, z = 15]" ∈ cell10.outputs
    ∧ "[z = 15, y = 14, x = 11]" ∈ cell10.outputs
    ∧ goalHolds cell10SubModel cell10Subgoal
    ∧ goalHolds cell10ConvModel cell10Goal := by decide

/-- C4 counterexample: `TryFor` is one of the ten listed operations, but no
executable code cell of the notebook invokes it. -/
theorem C4_counterexample_tryfor :
    ZOp.TryFor ∈ claimedOps
    ∧ ¬ ∃ c ∈ codeCells, ZOp.TryFor ∈ c.ops := by decide

/-- C4 amended: every operation of the list except `TryFor` and `When` is
invoked with literal arguments by at least one executable code cell;
`TryFor` and `When` are only described in markdown cells and invoked by no
code cell. -/
theorem C4_amended_ops_invoked :
    (∀ op ∈ claimedOps,
      op = ZOp.TryFor ∨ op = ZOp.When ∨ ∃ c ∈ codeCells, op ∈ c.ops)
    ∧ (∀ c ∈ codeCells, ZOp.TryFor ∉ c.ops ∧ ZOp.When ∉ c.ops)
    ∧ ZOp.TryFor ∈ markdownOps ∧ ZOp.When ∈ markdownOps := by decide

/-- C4 amended witness: the amended theorem applied at `Then`, which cell 2
invokes. -/
theorem C4_amended_ops_invoked_witness :
    ZOp.Then ∈ claimedOps
    ∧ (ZOp.Then = ZOp.TryFor ∨ ZOp.Then = ZOp.When
        ∨ ∃ c ∈ codeCells, ZOp.Then ∈ c.ops) :=
  ⟨by decide, C4_amended_ops_invoked.1 ZOp.Then (by decide)⟩

/-- C5: cell 7 records `sat` and the model `[y = 2061, x = 1984]`; under
exact 16-bit two's-complement arithmetic this model satisfies all three
constraints, `1984 * 32 + 2061` is congruent to 13 modulo `2 ^ 16`, and
`1984 & 2061 = 0`, matching the printed evaluations 13 and 0. -/
theorem C5_configured_bv_solver_model :
    "sat" ∈ cell7.outputs
    ∧ "[y = 2061, x = 1984]" ∈ cell7.outputs
    ∧ cell7Constraints 1984 2061
    ∧ (1984 * 32 + 2061) % 2 ^ 16 = 13
    ∧ bvAnd 1984 2061 = 0
    ∧ "x*32 + y == 13" ∈ cell7.outputs
    ∧ "x & y == 0" ∈ cell7.outputs := by decide

/-- C6: cell 9 records the assignment `[x = 3, z = 9, y = 1]`, which
satisfies every bounded constraint over the integers, and on the unbounded
instance it records the failure message `failed to solve`. -/
theorem C6_lia2pb_solver_model :
    "[x = 3, z = 9, y = 1]" ∈ cell9.outputs
    ∧ goalHolds cell9Model cell9Goal
    ∧ "failed to solve" ∈ cell9.outputs := by decide

/-- C7: cell 12's first goal has probe value 2 and its second has 3;
`If(p > 2, t1, t2)` therefore runs the second tactic on the first goal and
the first tactic on the second goal (whenever the first tactic succeeds
there); the recorded `factor` output `(y + -1*x)*(y + x) <= 0` is
equivalent over the reals to `x ** 2 - y ** 2 >= 0`, and the recorded
`simplify` output `[2*x + y + z >= 0, x**2 + -1*y**2 >= 0]` to
`[x + x + y + z >= 0, x ** 2 - y ** 2 >= 0]`. -/
theorem C7_if_selects_branch_by_probe (t1 t2 : Z3.RTactic) (r : List RGoal)
    (h : t1 cell12Goal2 = Except.ok r) :
    numConsts cell12Goal1 = 2
    ∧ numConsts cell12Goal2 = 3
    ∧ Z3.If probeGt2 t1 t2 cell12Goal1 = t2 cell12Goal1
    ∧ Z3.If probeGt2 t1 t2 cell12Goal2 = Except.ok r
    ∧ "[[(y + -1*x)*(y + x) <= 0]]" ∈ cell12.outputs
    ∧ "[[2*x + y + z >= 0, x**2 + -1*y**2 >= 0]]" ∈ cell12.outputs
    ∧ (∀ ρ : Nat → ℝ, goalHolds ρ cell12Out1 ↔ goalHolds ρ cell12Goal1)
    ∧ (∀ ρ : Nat → ℝ, goalHolds ρ cell12Out2 ↔ goalHolds ρ cell12Goal2) := by
  refine ⟨by decide, by decide, Z3.If_neg (by decide),
    Z3.If_pos (by decide) h, by decide, by decide, ?_, ?_⟩
  · intro ρ
    simp only [goalHolds, cell12Out1, cell12Goal1, List.mem_cons,
      List.not_mem_nil, or_false, forall_eq, RForm.holds, RExpr.eval]
    push_cast
    constructor <;> intro h1 <;> nlinarith [h1]
  · intro ρ
    simp only [goalHolds, cell12Out2, cell12Goal2, List.mem_cons,
      List.not_mem_nil, or_false, forall_eq_or_imp, forall_eq,
      RForm.holds, RExpr.eval]
    push_cast
    constructor <;> rintro ⟨h1, h2⟩ <;> constructor <;> nlinarith [h1, h2]

/-- C7 witness: the branch-selection theorem applied with the `skip` tactic
in both branches; on the three-constant goal `If` returns `skip`'s result,
the unchanged goal. -/
theorem C7_if_selects_branch_witness :
    Z3.If probeGt2 Z3.skip Z3.skip cell12Goal2 = Except.ok [cell12Goal2]
    ∧ numConsts cell12Goal1 = 2 :=
  ⟨(C7_if_selects_branch_by_probe Z3.skip Z3.skip [cell12Goal2] rfl).2.2.2.1,
   (C7_if_selects_branch_by_probe Z3.skip Z3.skip [cell12Goal2] rfl).1⟩

/-- C8: every statement of every code cell is an import, a name binding, a
library-expression or method call, a print, a try/except, or a printing
`for` loop; no cell defines a function or a class, writes a file, opens a
network connection, or defines a CLI. -/
theorem C8_cells_define_no_own_state :
    ∀ c ∈ codeCells, ∀ s ∈ c.stmts,
      (s = StmtKind.importAll ∨ s = StmtKind.bindName
        ∨ s = StmtKind.exprCall ∨ s = StmtKind.printCall
        ∨ s = StmtKind.tryExcept ∨ s = StmtKind.forLoopPrint)
      ∧ s ≠ StmtKind.defFun ∧ s ≠ StmtKind.defClass
      ∧ s ≠ StmtKind.fileWrite ∧ s ≠ StmtKind.networkOpen
      ∧ s ≠ StmtKind.cliInterface := by decide

/-- C8 witness: the statement kinds of cell 11's try/except statement. -/
theorem C8_cells_define_no_own_state_witness :
    (StmtKind.tryExcept = StmtKind.importAll
        ∨ StmtKind.tryExcept = StmtKind.bindName
        ∨ StmtKind.tryExcept = StmtKind.exprCall
        ∨ StmtKind.tryExcept = StmtKind.printCall
        ∨ StmtKind.tryExcept = StmtKind.tryExcept
        ∨ StmtKind.tryExcept = StmtKind.forLoopPrint)
      ∧ StmtKind.tryExcept ≠ StmtKind.defFun
      ∧ StmtKind.tryExcept ≠ StmtKind.defClass
      ∧ StmtKind.tryExcept ≠ StmtKind.fileWrite
      ∧ StmtKind.tryExcept ≠ StmtKind.networkOpen
      ∧ StmtKind.tryExcept ≠ StmtKind.cliInterface :=
  C8_cells_define_no_own_state cell11 (by decide) StmtKind.tryExcept
    (by decide)

/-- C9: on cell 11's second goal `x + y > 0`, whose probe value is 2, the
tactic `FailIf(p > 2)` raises no exception and returns exactly one subgoal,
the unchanged input goal, and the cell's output records `[[x + y > 0]]`. -/
theorem C9_failif_passes_through :
    numConsts cell11Goal2 = 2
    ∧ Z3.FailIf probeGt2 cell11Goal2 = Except.ok [cell11Goal2]
    ∧ "[[x + y > 0]]" ∈ cell11.outputs := by
  exact ⟨by decide, rfl, by decide⟩

/-- C10: cell 2 records the single subgoal `[Not(x <= 0), Not(x <= 2)]`;
over the reals, for every `x` that subgoal holds iff some `y` completes `x`
to a model of the input goal `x > 0, y > 0, x == y + 2`; the variable `y`
(index 1) is eliminated from the resultant goal while `x` (index 0) remains
free in it. -/
theorem C10_simplify_solveeqs_equisat :
    "[[Not(x <= 0), Not(x <= 2)]]" ∈ cell2.outputs
    ∧ (∀ x : ℝ, goalHolds (fun i => if i = 0 then x else 0) cell2Out
        ↔ ∃ y : ℝ, goalHolds (fun i => if i = 0 then x else y) cell2Goal)
    ∧ 1 ∉ goalVars cell2Out
    ∧ 0 ∈ goalVars cell2Out
    ∧ 1 ∈ goalVars cell2Goal := by
  refine ⟨by decide, ?_, by decide, by decide, by decide⟩
  intro x
  simp [goalHolds, cell2Out, cell2Goal, RForm.holds, RExpr.eval]
  intro hx
  constructor
  · intro h2
    exact ⟨x - 2, by linarith, by ring⟩
  · rintro ⟨y, hy, hxy⟩
    linarith

end ZStrat
